import Mathlib

/-!
Shallow embedding of the ESP01 plant-watering controller
(src/src/main.cpp and src/src/config.h).

Floats of the C source (volumeTotal, volumeCurrent) are modelled as
rationals; machine floats only appear here through addition, comparison
and the exact sentinel -1.0, so rational arithmetic is the real-number
semantics of the same expressions.  The MQTT/WiFi transport and the
ArduinoJson parser are external collaborators: a message is modelled as
the outcome of deserializeJson (parse failure, or an object whose
relevant keys are the optional fields below).
-/

/-- Payload token for the on state (config.h: CONFIG_MQTT_PAYLOAD_ON). -/
def CONFIG_MQTT_PAYLOAD_ON : String := "ON"

/-- Payload token for the off state (config.h: CONFIG_MQTT_PAYLOAD_OFF). -/
def CONFIG_MQTT_PAYLOAD_OFF : String := "OFF"

/-- Status update delay in ms (config.h: CONFIG_MQTT_UPDATE_FREQ). -/
def CONFIG_MQTT_UPDATE_FREQ : ℕ := 100

/-- Volume added per flow-meter pulse (main.cpp line 180).
The source text is `1000.0 / CONFIG_FLOW_METER_PULSES` and the macro
CONFIG_FLOW_METER_PULSES is defined in config.h line 36 as
`1925 * 3 / 2` without parentheses, so after textual substitution the
expression is `1000.0 / 1925 * 3 / 2`, which C evaluates left to right
as `((1000.0 / 1925) * 3) / 2`.  The Lean expression below parses the
same way. -/
def pulseIncrement : ℚ := 1000 / 1925 * 3 / 2

/-- Global mutable state of main.cpp (lines 21-24) together with the two
hardware effects the control logic drives: the pump output pin
(digitalWrite on CONFIG_PIN_PUMP) and whether the flow-meter interrupt
is attached (attachInterrupt / detachInterrupt). -/
structure Sys where
  state : Bool
  millis_time : ℕ
  volumeTotal : ℚ
  volumeCurrent : ℚ
  flowInterruptAttached : Bool
  pumpPin : Bool
deriving Repr, DecidableEq

/-- Initial values of the globals (main.cpp lines 21-24): pump state off,
commanded volume 0, current volume at the -1.0 sentinel; the pump pin is
low and the interrupt detached at reset. -/
def initialState : Sys :=
  { state := false, millis_time := 0, volumeTotal := 0, volumeCurrent := -1,
    flowInterruptAttached := false, pumpPin := false }

/-- A parsed JSON object, restricted to the keys the program reads or
writes: `state` (string), `volume` (number, read by processJson),
`volumeTarget` and `volumeCurrent` (numbers, written by sendState).
A missing field models containsKey returning false. -/
structure JsonDoc where
  state : Option String := none
  volume : Option ℚ := none
  volumeTarget : Option ℚ := none
  volumeCurrent : Option ℚ := none
deriving Repr, DecidableEq

/-- Outcome of deserializeJson on an incoming payload: either a parse
error (for example on the malformed text consisting of an open brace
followed by the letters bad json) or a parsed object. -/
inductive ParseResult where
  | failed
  | parsed (doc : JsonDoc)
deriving Repr, DecidableEq

/-- processJson (main.cpp lines 63-89): on a parse error return false and
touch nothing; otherwise, if a `state` key is present compare it with the
ON and OFF tokens (unrecognized tokens fall through), if a `volume` key is
present assign it to volumeTotal, and return true. -/
def processJson : ParseResult → Sys → Bool × Sys
  | .failed, s => (false, s)
  | .parsed doc, s =>
    let s1 := match doc.state with
      | some t =>
        if t = CONFIG_MQTT_PAYLOAD_ON then { s with state := true }
        else if t = CONFIG_MQTT_PAYLOAD_OFF then { s with state := false }
        else s
      | none => s
    let s2 := match doc.volume with
      | some v => { s1 with volumeTotal := v }
      | none => s1
    (true, s2)

/-- sendState (main.cpp lines 104-114): serialize the current state as a
JSON object with keys `state` (ON/OFF token), `volumeTarget` and
`volumeCurrent` (0 when at the -1.0 sentinel). -/
def sendState (s : Sys) : JsonDoc :=
  { state := some (if s.state then CONFIG_MQTT_PAYLOAD_ON else CONFIG_MQTT_PAYLOAD_OFF),
    volume := none,
    volumeTarget := some s.volumeTotal,
    volumeCurrent := some (if s.volumeCurrent = -1 then 0 else s.volumeCurrent) }

/-- callback (main.cpp lines 129-144): process the incoming message and,
if processJson succeeded, publish one status report. The second component
collects the payloads published to the state topic. -/
def callback (m : ParseResult) (s : Sys) : Sys × List JsonDoc :=
  let r := processJson m s
  if r.1 then (r.2, [sendState r.2]) else (r.2, [])

/-- pulseCounter (main.cpp lines 179-181): the flow-meter interrupt
handler; increments volumeCurrent by the per-pulse volume. -/
def pulseCounter (s : Sys) : Sys :=
  { s with volumeCurrent := s.volumeCurrent + pulseIncrement }

/-- One falling edge of the flow meter: the handler runs only while the
interrupt is attached (attachInterrupt / detachInterrupt in loop). -/
def pulseEvent (s : Sys) : Sys :=
  if s.flowInterruptAttached then pulseCounter s else s

/-- The watering part of loop() (main.cpp lines 221-240), one iteration,
taken at time `now` (the value millis() would return).  MQTT connection
maintenance (lines 212-220) is external.  Branches in source order:
arm (volumeCurrent still at the sentinel), stop (volume limit reached),
periodic status update, otherwise nothing.  The second component is the
status report published by this iteration, if any.  Times are unsigned
32-bit, so the elapsed time is computed modulo 2^32. -/
def loopStep (now : ℕ) (s : Sys) : Sys × Option JsonDoc :=
  if s.state then
    if s.volumeCurrent = -1 then
      ({ s with volumeCurrent := 0, flowInterruptAttached := true,
                pumpPin := true, millis_time := now }, none)
    else if s.volumeTotal ≤ s.volumeCurrent then
      let s2 : Sys := { s with pumpPin := false, flowInterruptAttached := false,
                               volumeCurrent := -1, state := false }
      (s2, some (sendState s2))
    else if CONFIG_MQTT_UPDATE_FREQ ≤ (now + 2 ^ 32 - s.millis_time) % 2 ^ 32 then
      ({ s with millis_time := now }, some (sendState s))
    else (s, none)
  else (s, none)

/-- Externally triggered events: a message arriving on the set topic, a
flow-meter edge, or one pass of loop() at a given time. -/
inductive Ev where
  | cmd (m : ParseResult)
  | pulse
  | tick (now : ℕ)
deriving Repr

/-- Apply one event to the system state. -/
def stepEv (s : Sys) : Ev → Sys
  | .cmd m => (callback m s).1
  | .pulse => pulseEvent s
  | .tick now => (loopStep now s).1

/-- Run a sequence of events. -/
def runEvents (s : Sys) (evs : List Ev) : Sys := evs.foldl stepEv s

/-- A state is reachable when some event sequence leads to it from the
initial state. -/
def Reachable (s : Sys) : Prop := ∃ evs, runEvents initialState evs = s

/-- Actions performed by setup() (main.cpp lines 190-206), in order. -/
inductive SetupAction where
  | pinModePump
  | pinModeFlowMeter
  | serialBegin
  | wifiSetup
  | mqttSetServer
  | mqttSetCallback
deriving Repr, DecidableEq

/-- setup() (main.cpp lines 190-206): configure the pump pin, the flow
meter pin (only when debugging is off), optionally the serial port, then
WiFi and MQTT.  It takes the flow-meter calibration constant as an
argument to record that no action reads or validates it. -/
def setup (debug : Bool) (pulsesPerLiter : ℤ) : List SetupAction :=
  [SetupAction.pinModePump]
    ++ (if debug then [] else [SetupAction.pinModeFlowMeter])
    ++ (if debug then [SetupAction.serialBegin] else [])
    ++ [SetupAction.wifiSetup, SetupAction.mqttSetServer, SetupAction.mqttSetCallback]

/-- Whether setup() halts with a fatal configuration error for the given
calibration constant.  The body of setup() contains no conditional on any
configuration value that aborts startup, so the answer is false for every
constant and loop() is always entered. -/
def setupRejectsCalibration (debug : Bool) (pulsesPerLiter : ℤ) : Bool := false

/-- Command payload requesting the on state. -/
def onDoc : JsonDoc := { state := some CONFIG_MQTT_PAYLOAD_ON }

/-- Command payload requesting the off state. -/
def offDoc : JsonDoc := { state := some CONFIG_MQTT_PAYLOAD_OFF }

/-- Command payload carrying only a volume. -/
def volDoc : JsonDoc := { volume := some 500 }

/-- Command payload carrying only a negative volume. -/
def negDoc : JsonDoc := { volume := some (-5) }

/-- Payload whose state token is neither ON nor OFF. -/
def unknownDoc : JsonDoc := { state := some "TOGGLE" }

/-- A mid-cycle watering state: pump on, interrupt attached, 10 ml of a
1000 ml target delivered. -/
def wateringEx : Sys :=
  { state := true, millis_time := 0, volumeTotal := 1000, volumeCurrent := 10,
    flowInterruptAttached := true, pumpPin := true }

/-- The state right after the arming branch of loop() with a 1000 ml
target: watering, interrupt attached, nothing delivered yet. -/
def armedZero : Sys :=
  { state := true, millis_time := 0, volumeTotal := 1000, volumeCurrent := 0,
    flowInterruptAttached := true, pumpPin := true }

/-- A watering state whose delivered volume has reached the target. -/
def wateringDone : Sys :=
  { state := true, millis_time := 0, volumeTotal := 1000, volumeCurrent := 1000,
    flowInterruptAttached := true, pumpPin := true }


/-! Helper lemmas. -/

/-- processJson only ever writes the state flag and volumeTotal; the other
four fields pass through untouched. -/
lemma processJson_preserves (m : ParseResult) (s : Sys) :
    (processJson m s).2.volumeCurrent = s.volumeCurrent
    ∧ (processJson m s).2.flowInterruptAttached = s.flowInterruptAttached
    ∧ (processJson m s).2.pumpPin = s.pumpPin
    ∧ (processJson m s).2.millis_time = s.millis_time := by
  cases m with
  | failed => exact ⟨rfl, rfl, rfl, rfl⟩
  | parsed doc =>
    cases hst : doc.state <;> cases hv : doc.volume <;>
      simp only [processJson, hst, hv] <;>
      first
      | (split_ifs <;> simp)
      | simp

/-- The state handed on by callback is exactly the one processJson
produced, whether or not a report was published. -/
lemma callback_fst (m : ParseResult) (s : Sys) :
    (callback m s).1 = (processJson m s).2 := by
  by_cases h : (processJson m s).1 <;> simp [callback, h]

/-- The per-pulse increment is positive. -/
lemma pulseIncrement_pos : 0 < pulseIncrement := by norm_num [pulseIncrement]

/-- A pulse event does not change the attached flag. -/
lemma pulseEvent_attached (s : Sys) :
    (pulseEvent s).flowInterruptAttached = s.flowInterruptAttached := by
  by_cases h : s.flowInterruptAttached <;> simp [pulseEvent, pulseCounter, h]

/-- A pulse event on an attached state adds the per-pulse increment. -/
lemma pulseEvent_volume (s : Sys) (h : s.flowInterruptAttached = true) :
    (pulseEvent s).volumeCurrent = s.volumeCurrent + pulseIncrement := by
  simp [pulseEvent, pulseCounter, h]

/-- Iterating pulse events from an attached state adds the per-pulse
increment once per event and keeps the interrupt attached. -/
lemma pulseEvent_iterate (n : ℕ) (s : Sys) (h : s.flowInterruptAttached = true) :
    (pulseEvent^[n] s).volumeCurrent = s.volumeCurrent + n * pulseIncrement
    ∧ (pulseEvent^[n] s).flowInterruptAttached = true := by
  induction n generalizing s with
  | zero => exact ⟨by simp, by simpa using h⟩
  | succ k ih =>
    have hone : (pulseEvent s).flowInterruptAttached = true := by
      rw [pulseEvent_attached]
      exact h
    obtain ⟨hv, ha⟩ := ih (pulseEvent s) hone
    refine ⟨?_, by rw [Function.iterate_succ_apply]; exact ha⟩
    rw [Function.iterate_succ_apply, hv, pulseEvent_volume s h]
    push_cast
    ring

/-- The arming branch of loop() (main.cpp lines 222-227). -/
lemma loopStep_arm (now : ℕ) (s : Sys) (hs : s.state = true)
    (hvc : s.volumeCurrent = -1) :
    loopStep now s =
      ({ s with volumeCurrent := 0, flowInterruptAttached := true,
                pumpPin := true, millis_time := now }, none) := by
  simp [loopStep, hs, hvc]

/-- The stop branch of loop() (main.cpp lines 228-234). -/
lemma loopStep_stop (now : ℕ) (s : Sys) (hs : s.state = true)
    (hvc : s.volumeCurrent ≠ -1) (hle : s.volumeTotal ≤ s.volumeCurrent) :
    loopStep now s =
      ({ s with pumpPin := false, flowInterruptAttached := false,
                volumeCurrent := -1, state := false },
       some (sendState { s with pumpPin := false, flowInterruptAttached := false,
                                volumeCurrent := -1, state := false })) := by
  simp [loopStep, hs, hvc, hle]

/-- When watering continues (no exit branch taken), loop() leaves every
field except millis_time unchanged. -/
lemma loopStep_progress_fields (now : ℕ) (s : Sys) (hs : s.state = true)
    (hvc : s.volumeCurrent ≠ -1) (hle : ¬ s.volumeTotal ≤ s.volumeCurrent) :
    (loopStep now s).1.state = s.state
    ∧ (loopStep now s).1.volumeCurrent = s.volumeCurrent
    ∧ (loopStep now s).1.volumeTotal = s.volumeTotal
    ∧ (loopStep now s).1.flowInterruptAttached = s.flowInterruptAttached
    ∧ (loopStep now s).1.pumpPin = s.pumpPin := by
  by_cases ht : CONFIG_MQTT_UPDATE_FREQ ≤ (now + 4294967296 - s.millis_time) % 4294967296 <;>
    simp [loopStep, hs, hvc, hle, ht]

/-- When the pump state flag is off, loop() does nothing. -/
lemma loopStep_idle (now : ℕ) (s : Sys) (hs : s.state = false) :
    loopStep now s = (s, none) := by
  simp [loopStep, hs]

/-- Invariant relating the sentinel to the interrupt: either the interrupt
is detached and volumeCurrent sits at -1, or it is attached and
volumeCurrent is nonnegative. -/
def ArmedInv (s : Sys) : Prop :=
  (s.flowInterruptAttached = false ∧ s.volumeCurrent = -1)
    ∨ (s.flowInterruptAttached = true ∧ 0 ≤ s.volumeCurrent)

lemma armedInv_initial : ArmedInv initialState := Or.inl ⟨rfl, rfl⟩

lemma armedInv_stepEv (s : Sys) (e : Ev) (h : ArmedInv s) : ArmedInv (stepEv s e) := by
  cases e with
  | cmd m =>
    have hp := processJson_preserves m s
    unfold ArmedInv at h ⊢
    rw [stepEv, callback_fst, hp.1, hp.2.1]
    exact h
  | pulse =>
    rcases h with ⟨ha, hv⟩ | ⟨ha, hv⟩
    · left
      refine ⟨?_, ?_⟩
      · rw [stepEv, pulseEvent_attached]
        exact ha
      · simp [stepEv, pulseEvent, ha, hv]
    · right
      refine ⟨?_, ?_⟩
      · rw [stepEv, pulseEvent_attached]
        exact ha
      · rw [stepEv, pulseEvent_volume s ha]
        have := pulseIncrement_pos
        linarith
  | tick now =>
    rw [stepEv]
    by_cases hs : s.state
    · by_cases hvc : s.volumeCurrent = -1
      · rw [loopStep_arm now s hs hvc]
        right
        exact ⟨rfl, le_refl 0⟩
      · by_cases hle : s.volumeTotal ≤ s.volumeCurrent
        · rw [loopStep_stop now s hs hvc hle]
          left
          exact ⟨rfl, rfl⟩
        · have hf := loopStep_progress_fields now s hs hvc hle
          unfold ArmedInv at h ⊢
          rw [hf.2.1, hf.2.2.2.1]
          exact h
    · have hs2 : s.state = false := by simpa using hs
      rw [loopStep_idle now s hs2]
      exact h

lemma armedInv_run (evs : List Ev) (s : Sys) (h : ArmedInv s) :
    ArmedInv (runEvents s evs) := by
  induction evs generalizing s with
  | nil => exact h
  | cons e t ih =>
    rw [runEvents, List.foldl_cons]
    exact ih (stepEv s e) (armedInv_stepEv s e h)

/-- Rewriting a state whose flag is already true with the flag set to true
is the identity. -/
lemma set_state_true_eq (s : Sys) (h : s.state = true) :
    ({ s with state := true } : Sys) = s := by
  rcases s with ⟨st, mt, vt, vc, fa, pp⟩
  simp only at h
  simp [h]

/-- Status report source used for the round-trip check: idle, target 5. -/
def reportSrc : Sys :=
  { state := false, millis_time := 0, volumeTotal := 5, volumeCurrent := -1,
    flowInterruptAttached := false, pumpPin := false }

/-- Decoder-side state with a different target, 7. -/
def decodeDst : Sys :=
  { state := false, millis_time := 0, volumeTotal := 7, volumeCurrent := -1,
    flowInterruptAttached := false, pumpPin := false }

/-! Claim theorems. -/

/-- C1: evaluating the code at the failing input.  An OFF command arriving
while watering (10 of 1000 ml delivered) only clears the state flag:
processJson succeeds and sets state to false, but the pump pin stays
high, the flow-meter interrupt stays attached and volumeCurrent keeps its
value instead of the -1 sentinel — none of the target-reached side
effects happen, and every later loop() pass leaves this state untouched
because the whole watering block is guarded by the now-false flag. -/
theorem setoff_while_watering_no_cleanup :
    (processJson (.parsed offDoc) wateringEx).1 = true
    ∧ (processJson (.parsed offDoc) wateringEx).2.state = false
    ∧ (processJson (.parsed offDoc) wateringEx).2.pumpPin = true
    ∧ (processJson (.parsed offDoc) wateringEx).2.flowInterruptAttached = true
    ∧ (processJson (.parsed offDoc) wateringEx).2.volumeCurrent = 10
    ∧ (loopStep 0 (processJson (.parsed offDoc) wateringEx).2).1
        = (processJson (.parsed offDoc) wateringEx).2 := by
  have hp : processJson (.parsed offDoc) wateringEx
      = (true, { wateringEx with state := false }) := by
    simp [processJson, offDoc, CONFIG_MQTT_PAYLOAD_ON, CONFIG_MQTT_PAYLOAD_OFF]
  rw [hp]
  refine ⟨rfl, rfl, rfl, rfl, rfl, ?_⟩
  rw [loopStep_idle 0 ({ wateringEx with state := false }) rfl]

/-- C2 counterexample: after an ON command and before the next loop()
pass, the reachable state has the pump flag set to true while
volumeCurrent is still at the -1 sentinel, so the claimed equivalence
between the sentinel and the Idle flag fails. -/
theorem sentinel_iff_idle_cex :
    (runEvents initialState [Ev.cmd (.parsed onDoc)]).state = true
    ∧ (runEvents initialState [Ev.cmd (.parsed onDoc)]).volumeCurrent = -1
    ∧ ¬ ((runEvents initialState [Ev.cmd (.parsed onDoc)]).volumeCurrent = -1
          ↔ (runEvents initialState [Ev.cmd (.parsed onDoc)]).state = false) := by
  have h : runEvents initialState [Ev.cmd (.parsed onDoc)]
      = { initialState with state := true } := by
    show stepEv initialState (Ev.cmd (.parsed onDoc)) = _
    rw [stepEv, callback_fst]
    simp [processJson, onDoc]
  rw [h]
  refine ⟨rfl, rfl, fun hiff => ?_⟩
  exact Bool.noConfusion (hiff.mp rfl)

/-- C2 amended: in every reachable state, volumeCurrent equals the unset
sentinel -1 exactly when the flow-meter interrupt is detached (rather
than exactly when the state flag is false). -/
theorem sentinel_iff_detached (s : Sys) (h : Reachable s) :
    s.volumeCurrent = -1 ↔ s.flowInterruptAttached = false := by
  obtain ⟨evs, rfl⟩ := h
  have hinv := armedInv_run evs initialState armedInv_initial
  rcases hinv with ⟨ha, hv⟩ | ⟨ha, hv⟩
  · exact ⟨fun _ => ha, fun _ => hv⟩
  · constructor
    · intro hvc
      rw [hvc] at hv
      norm_num at hv
    · intro hfa
      rw [ha] at hfa
      exact Bool.noConfusion hfa

/-- C2 witness: the initial state is reachable and satisfies the amended
equivalence. -/
theorem sentinel_iff_detached_witness :
    initialState.volumeCurrent = -1 ↔ initialState.flowInterruptAttached = false :=
  sentinel_iff_detached initialState ⟨[], rfl⟩

/-- C3 counterexample: one pulse from the armed zero state adds
1000 / 1925 * 3 / 2 = 60/77 of a millilitre — the left-to-right value of
the unparenthesized macro — which differs from the claimed per-pulse
volume 1000 / (1925 * 3 / 2). -/
theorem per_pulse_rate_cex :
    (pulseEvent armedZero).volumeCurrent = 1000 / 1925 * 3 / 2
    ∧ (1000 / 1925 * 3 / 2 : ℚ) = 60 / 77
    ∧ (pulseEvent armedZero).volumeCurrent
        ≠ armedZero.volumeCurrent + 1000 / (1925 * 3 / 2)
    ∧ (1000 / 1925 * 3 / 2 : ℚ) ≠ 1000 / (1925 * 3 / 2) := by
  refine ⟨?_, by norm_num, ?_, by norm_num⟩
  · rw [pulseEvent_volume armedZero rfl]
    norm_num [armedZero, pulseIncrement]
  · rw [pulseEvent_volume armedZero rfl]
    norm_num [armedZero, pulseIncrement]

/-- C3 amended: N pulse events while the interrupt is attached increase
volumeCurrent by exactly N times 1000 / 1925 * 3 / 2 (that is 60/77,
about 0.779 ml), the value the unparenthesized CONFIG_FLOW_METER_PULSES
macro produces inside pulseCounter. -/
theorem pulses_add_macro_rate (n : ℕ) (s : Sys) (h : s.flowInterruptAttached = true) :
    (pulseEvent^[n] s).volumeCurrent = s.volumeCurrent + n * (1000 / 1925 * 3 / 2) := by
  have hp := (pulseEvent_iterate n s h).1
  simpa only [pulseIncrement] using hp

/-- C3 witness: 1926 pulses from the armed zero state. -/
theorem pulses_add_macro_rate_witness :
    armedZero.flowInterruptAttached = true
    ∧ (pulseEvent^[1926] armedZero).volumeCurrent
        = armedZero.volumeCurrent + ((1926 : ℕ) : ℚ) * (1000 / 1925 * 3 / 2) :=
  ⟨rfl, pulses_add_macro_rate 1926 armedZero rfl⟩

/-- C4: on a loop() pass taken while watering with a valid (non-sentinel)
volumeCurrent, the transition to Idle happens exactly when volumeCurrent
has reached volumeTotal; on that pass the pump pin goes low, the
interrupt is detached, volumeCurrent returns to the sentinel and the
published report is the status of the new state; on any other pass the
watering fields are untouched. -/
theorem tick_stop_iff (s : Sys) (now : ℕ) (h1 : s.state = true)
    (h2 : s.volumeCurrent ≠ -1) :
    ((loopStep now s).1.state = false ↔ s.volumeTotal ≤ s.volumeCurrent)
    ∧ (s.volumeTotal ≤ s.volumeCurrent →
        (loopStep now s).1.pumpPin = false
        ∧ (loopStep now s).1.flowInterruptAttached = false
        ∧ (loopStep now s).1.volumeCurrent = -1
        ∧ (loopStep now s).2 = some (sendState (loopStep now s).1))
    ∧ (¬ s.volumeTotal ≤ s.volumeCurrent →
        (loopStep now s).1.state = true
        ∧ (loopStep now s).1.volumeCurrent = s.volumeCurrent
        ∧ (loopStep now s).1.flowInterruptAttached = s.flowInterruptAttached
        ∧ (loopStep now s).1.pumpPin = s.pumpPin) := by
  by_cases hle : s.volumeTotal ≤ s.volumeCurrent
  · rw [loopStep_stop now s h1 h2 hle]
    exact ⟨⟨fun _ => hle, fun _ => rfl⟩, fun _ => ⟨rfl, rfl, rfl, rfl⟩,
      fun hc => absurd hle hc⟩
  · have hf := loopStep_progress_fields now s h1 h2 hle
    refine ⟨⟨fun hfalse => ?_, fun hle2 => absurd hle2 hle⟩,
      fun hle2 => absurd hle2 hle,
      fun _ => ⟨hf.1.trans h1, hf.2.1, hf.2.2.2.1, hf.2.2.2.2⟩⟩
    rw [hf.1, h1] at hfalse
    exact Bool.noConfusion hfalse

/-- C4 witness: a watering state that has just reached its 1000 ml
target. -/
theorem tick_stop_iff_witness :
    wateringDone.state = true
    ∧ wateringDone.volumeCurrent ≠ -1
    ∧ ((loopStep 0 wateringDone).1.state = false
        ↔ wateringDone.volumeTotal ≤ wateringDone.volumeCurrent) :=
  ⟨rfl, by norm_num [wateringDone],
   (tick_stop_iff wateringDone 0 rfl (by norm_num [wateringDone])).1⟩

/-- C5: a parse failure returns false and leaves the whole state (in
particular the pump flag, volumeTotal and volumeCurrent) untouched; a
parsed payload touches volumeCurrent never, the state flag only when a
recognized ON or OFF token is present, and volumeTotal only when a
volume field is present, in which case it receives exactly that value. -/
theorem processJson_failure_and_partial (s : Sys) (doc : JsonDoc) :
    processJson .failed s = (false, s)
    ∧ (processJson (.parsed doc) s).2.volumeCurrent = s.volumeCurrent
    ∧ (doc.state = none → (processJson (.parsed doc) s).2.state = s.state)
    ∧ (doc.volume = none → (processJson (.parsed doc) s).2.volumeTotal = s.volumeTotal)
    ∧ (∀ v, doc.volume = some v → (processJson (.parsed doc) s).2.volumeTotal = v)
    ∧ (doc.state = some CONFIG_MQTT_PAYLOAD_ON →
        (processJson (.parsed doc) s).2.state = true)
    ∧ (doc.state = some CONFIG_MQTT_PAYLOAD_OFF →
        (processJson (.parsed doc) s).2.state = false) := by
  refine ⟨rfl, (processJson_preserves (.parsed doc) s).1, ?_, ?_, ?_, ?_, ?_⟩
  · intro hst
    cases hv : doc.volume <;> simp [processJson, hst, hv]
  · intro hv
    cases hst : doc.state with
    | none => simp [processJson, hst, hv]
    | some t =>
      simp only [processJson, hst, hv]
      split_ifs <;> simp
  · intro v hv
    cases hst : doc.state with
    | none => simp [processJson, hst, hv]
    | some t => simp [processJson, hst, hv]
  · intro hst
    cases hv : doc.volume <;>
      simp [processJson, hst, hv, CONFIG_MQTT_PAYLOAD_ON]
  · intro hst
    cases hv : doc.volume <;>
      simp [processJson, hst, hv, CONFIG_MQTT_PAYLOAD_ON, CONFIG_MQTT_PAYLOAD_OFF]

/-- C5 witness: the failure case at the initial state, and a payload
carrying only a volume of 500, which sets volumeTotal and nothing else. -/
theorem processJson_failure_and_partial_witness :
    processJson .failed initialState = (false, initialState)
    ∧ (processJson (.parsed volDoc) initialState).2.volumeTotal = 500
    ∧ (processJson (.parsed volDoc) initialState).2.state = initialState.state := by
  have h := processJson_failure_and_partial initialState volDoc
  exact ⟨h.1, h.2.2.2.2.1 500 rfl, h.2.2.1 rfl⟩

/-- C6 counterexample: the status report of an idle state with target 5,
decoded into a state with target 7, leaves the decoder-side target at 7,
because the encoder writes the target under the volumeTarget key while
the decoder only reads the volume key. -/
theorem roundtrip_target_cex :
    reportSrc.volumeTotal = 5
    ∧ (processJson (.parsed (sendState reportSrc)) decodeDst).2.volumeTotal = 7
    ∧ (processJson (.parsed (sendState reportSrc)) decodeDst).2.volumeTotal
        ≠ reportSrc.volumeTotal := by
  have h7 : (processJson (.parsed (sendState reportSrc)) decodeDst).2.volumeTotal = 7 := by
    simp [processJson, sendState, reportSrc, decodeDst,
      CONFIG_MQTT_PAYLOAD_ON, CONFIG_MQTT_PAYLOAD_OFF]
  refine ⟨rfl, h7, ?_⟩
  rw [h7]
  norm_num [reportSrc]

/-- C6 amended: decoding an encoded status report through processJson
succeeds and copies back exactly the state flag; every other field of the
decoding side, volumeTotal included, keeps its previous value, since the
encoder emits the target as volumeTarget while the decoder reads volume. -/
theorem roundtrip_state_only (s t : Sys) :
    processJson (.parsed (sendState s)) t = (true, { t with state := s.state }) := by
  cases hs : s.state <;>
    simp [processJson, sendState, hs, CONFIG_MQTT_PAYLOAD_ON, CONFIG_MQTT_PAYLOAD_OFF]

/-- C7 counterexample: with a zero pulses-per-liter constant, startup does
not reject the configuration: setup() runs the same actions it runs for
the shipped constant 2887 and reports no fatal error, so loop() is
entered. -/
theorem setup_zero_calibration_cex :
    setupRejectsCalibration false 0 = false
    ∧ setup false 0 = setup false 2887 := by
  exact ⟨rfl, rfl⟩

/-- C7 amended: setup() performs no validation at all of the calibration
constant: its action sequence is independent of the constant and it never
signals a fatal configuration error, so the control loop is entered for
every value of the constant, zero included. -/
theorem setup_ignores_calibration (debug : Bool) (p q : ℤ) :
    setup debug p = setup debug q ∧ setupRejectsCalibration debug p = false :=
  ⟨rfl, rfl⟩

/-- C8 counterexample: decoding a payload whose volume field is -5 from
the initial state makes volumeTotal negative. -/
theorem negative_volume_cex :
    (processJson (.parsed negDoc) initialState).2.volumeTotal = -5
    ∧ ¬ (0 ≤ (processJson (.parsed negDoc) initialState).2.volumeTotal) := by
  have h : (processJson (.parsed negDoc) initialState).2.volumeTotal = -5 := by
    simp [processJson, negDoc]
  rw [h]
  norm_num

/-- C8 amended: volumeTotal receives exactly the numeric value of the
decoded volume field, with no sign check or clamping, so a negative field
value makes the commanded volume negative. -/
theorem decode_sets_volume_unclamped (s : Sys) (v : ℚ) :
    (processJson (.parsed { state := none, volume := some v }) s).2.volumeTotal = v := by
  simp [processJson]

/-- C9: an ON command while the pump flag is already set leaves the whole
state unchanged (volumeCurrent is not reset, the interrupt is not
touched), and while volumeCurrent is off the sentinel no loop() pass can
re-run the arming branch: the pass either keeps volumeCurrent and the
interrupt exactly as they are or takes the stop exit, so the accumulator
is armed exactly once per watering cycle. -/
theorem seton_while_watering_noop (s : Sys) (now : ℕ) (h : s.state = true)
    (h2 : s.volumeCurrent ≠ -1) :
    processJson (.parsed onDoc) s = (true, s)
    ∧ (((loopStep now s).1.volumeCurrent = s.volumeCurrent
         ∧ (loopStep now s).1.flowInterruptAttached = s.flowInterruptAttached)
       ∨ ((loopStep now s).1.flowInterruptAttached = false
          ∧ (loopStep now s).1.volumeCurrent = -1)) := by
  constructor
  · have he : ({ s with state := true } : Sys) = s := set_state_true_eq s h
    simp [processJson, onDoc, he]
  · by_cases hle : s.volumeTotal ≤ s.volumeCurrent
    · right
      rw [loopStep_stop now s h h2 hle]
      exact ⟨rfl, rfl⟩
    · left
      have hf := loopStep_progress_fields now s h h2 hle
      exact ⟨hf.2.1, hf.2.2.2.1⟩

/-- C9 witness: the mid-cycle watering state. -/
theorem seton_while_watering_noop_witness :
    wateringEx.state = true
    ∧ wateringEx.volumeCurrent ≠ -1
    ∧ processJson (.parsed onDoc) wateringEx = (true, wateringEx) :=
  ⟨rfl, by norm_num [wateringEx],
   (seton_while_watering_noop wateringEx 0 rfl (by norm_num [wateringEx])).1⟩

/-- C10: processJson succeeds exactly when the payload parsed: any parsed
object yields true, and a parsed object with no volume field and no
recognized state token (for example an empty object, or one whose state
field holds an unknown token) changes nothing, yet the callback still
publishes one status report; a parse failure yields false and publishes
nothing. -/
theorem decode_success_iff_parse (s : Sys) (doc : JsonDoc)
    (hs : ∀ t, doc.state = some t →
      t ≠ CONFIG_MQTT_PAYLOAD_ON ∧ t ≠ CONFIG_MQTT_PAYLOAD_OFF)
    (hv : doc.volume = none) :
    processJson (.parsed doc) s = (true, s)
    ∧ processJson .failed s = (false, s)
    ∧ (∀ d : JsonDoc, (processJson (.parsed d) s).1 = true)
    ∧ callback (.parsed doc) s = (s, [sendState s])
    ∧ callback .failed s = (s, []) := by
  have hmain : processJson (.parsed doc) s = (true, s) := by
    cases hst : doc.state with
    | none => simp [processJson, hst, hv]
    | some t =>
      obtain ⟨hon, hoff⟩ := hs t hst
      simp [processJson, hst, hv, hon, hoff]
  refine ⟨hmain, rfl, fun d => rfl, ?_, rfl⟩
  simp [callback, hmain]

/-- C10 witness: a payload whose state token is neither ON nor OFF, taken
at the initial state. -/
theorem decode_success_iff_parse_witness :
    processJson (.parsed unknownDoc) initialState = (true, initialState)
    ∧ callback (.parsed unknownDoc) initialState
        = (initialState, [sendState initialState]) := by
  have h := decode_success_iff_parse initialState unknownDoc
    (by
      intro t ht
      simp only [unknownDoc] at ht
      injection ht with ht2
      subst ht2
      exact ⟨by decide, by decide⟩)
    rfl
  exact ⟨h.1, h.2.2.2.1⟩
